import Mathlib

/-!
Verification development for the sales-automation backend lead pipeline.

The Python sources are shallowly embedded: pure functions become Lean
functions over `String`, `Nat`, `Bool`, `Option` and `ℚ` (Python floats are
modelled by exact rationals; every arithmetic operation performed by the
code on the concrete tables stays away from binary-float boundary effects,
and `round(x, 2)` is modelled by round-half-to-even on the exact value).
External HTTP services and the document store are modelled as explicit
oracle parameters and as a list of records threaded through the functions.
-/

/-! ## Python-semantics helpers -/

/-- Truthiness of an optional string, as Python evaluates `if s:`:
`None` and the empty string are falsy. -/
def truthy : Option String → Bool
  | none => false
  | some s => s != ""

/-- Python's `a or b` on optional strings: `b` when `a` is falsy. -/
def pyOr (a b : Option String) : Option String :=
  if truthy a then a else b

/-- Containment of `needle` in a character list, as Python's `in` on `str`. -/
def isSubChars (needle : List Char) : List Char → Bool
  | [] => needle.isEmpty
  | c :: rest => needle.isPrefixOf (c :: rest) || isSubChars needle rest

/-- Python's `needle in hay` substring test. -/
def containsSub (hay needle : String) : Bool :=
  isSubChars needle.toList hay.toList

/-- Python's `str.title()` on the ASCII alphabet: the first letter of every
run of letters is uppercased, the following letters are lowercased. -/
def pyTitleAux : Bool → List Char → List Char
  | _, [] => []
  | prevAlpha, c :: cs =>
    if c.isAlpha then
      (if prevAlpha then c.toLower else c.toUpper) :: pyTitleAux true cs
    else
      c :: pyTitleAux false cs

/-- Python's `str.title()`. -/
def pyTitle (s : String) : String :=
  String.mk (pyTitleAux false s.toList)

/-- Python's `str.lower()` (ASCII). -/
def strLower (s : String) : String :=
  String.mk (s.data.map Char.toLower)

/-- Python's `str.upper()` (ASCII). -/
def strUpper (s : String) : String :=
  String.mk (s.data.map Char.toUpper)

/-- Splitting a character list on whitespace runs, dropping empty pieces. -/
def wsplit : List Char → List (List Char)
  | [] => []
  | c :: rest =>
    if c.isWhitespace then wsplit rest
    else (c :: rest.takeWhile (fun x => !x.isWhitespace)) ::
      wsplit (rest.dropWhile (fun x => !x.isWhitespace))
termination_by l => l.length
decreasing_by
  · simp only [List.length_cons]; omega
  · simp only [List.length_cons]
    exact Nat.lt_succ_of_le (List.dropWhile_sublist _).length_le

/-- Python's `str.split()` with no argument. -/
def splitWs (s : String) : List String :=
  (wsplit s.data).map String.mk

/-- Python's `str.strip()` with no argument. -/
def pyStrip (s : String) : String :=
  String.mk (((s.data.dropWhile Char.isWhitespace).reverse.dropWhile
    Char.isWhitespace).reverse)

/-- Replacement of every (non-overlapping, leftmost-first) occurrence of a
nonempty character pattern, as Python's `str.replace`; an empty pattern
leaves the list unchanged (the source never passes one). -/
def replChars (needle repl : List Char) : List Char → List Char
  | [] => []
  | c :: rest =>
    if needle.isPrefixOf (c :: rest) && !needle.isEmpty then
      repl ++ replChars needle repl ((c :: rest).drop needle.length)
    else
      c :: replChars needle repl rest
termination_by l => l.length
decreasing_by
  · rename_i h
    simp only [Bool.and_eq_true, Bool.not_eq_true'] at h
    have hne : needle ≠ [] := by
      intro he; rw [he] at h; simp at h
    simp only [List.length_drop, List.length_cons]
    have : 1 ≤ needle.length := List.length_pos.mpr hne
    omega
  · simp only [List.length_cons]; omega

/-- Python's `str.replace(old, new)`. -/
def pyReplace (s old new : String) : String :=
  String.mk (replChars old.data new.data s.data)

/-- A single-quote character, used when rebuilding the f-strings of the
source verbatim. -/
def sglQuote : String := String.singleton (Char.ofNat 39)

/-- Python's `dict.get(k, d)` over an association list. -/
def lookupD {α : Type} (l : List (String × α)) (k : String) (d : α) : α :=
  match l.find? (fun p => p.1 == k) with
  | some p => p.2
  | none => d

/-- Round-half-to-even to an integer, the tie rule of Python's `round`. -/
def roundHalfEven (q : ℚ) : ℤ :=
  let f := ⌊q⌋
  if q - f < 1/2 then f
  else if (1:ℚ)/2 < q - f then f + 1
  else if f % 2 = 0 then f else f + 1

/-- Python's `round(x, 2)` modelled on exact rationals. -/
def pyRound2 (q : ℚ) : ℚ :=
  (roundHalfEven (q * 100) : ℚ) / 100

/-- Insertion step for a descending sort of rationals. -/
def insertDescQ (a : ℚ) : List ℚ → List ℚ
  | [] => [a]
  | b :: l => if b ≤ a then a :: b :: l else b :: insertDescQ a l

/-- Descending (stable) sort of rationals, as `sorted(..., reverse=True)`. -/
def sortDescQ : List ℚ → List ℚ
  | [] => []
  | a :: l => insertDescQ a (sortDescQ l)

/-! ## `app/core/emr_estimator.py` -/

/-- EMR system estimate with confidence score (`EMREstimate`). -/
structure EMREstimate where
  emr_system : String
  confidence : ℚ
  reasoning : String
deriving DecidableEq

/-- Clinic size estimate with confidence score (`ClinicSizeEstimate`). -/
structure ClinicSizeEstimate where
  clinic_size : String
  confidence : ℚ
  reasoning : String
deriving DecidableEq

/-- The `KNOWN_HOSPITAL_SYSTEMS` table, in source order. -/
def KNOWN_HOSPITAL_SYSTEMS : List (String × String × ℚ) :=
  [("mayo clinic", "Epic", 95/100),
   ("cleveland clinic", "Epic", 95/100),
   ("johns hopkins", "Epic", 95/100),
   ("kaiser permanente", "Epic", 95/100),
   ("intermountain", "Epic", 95/100),
   ("providence", "Epic", 90/100),
   ("advocate", "Epic", 90/100),
   ("aurora health", "Epic", 90/100),
   ("cedars-sinai", "Epic", 90/100),
   ("mount sinai", "Epic", 90/100),
   ("ucsf", "Epic", 90/100),
   ("ucla health", "Epic", 90/100),
   ("stanford health", "Epic", 90/100),
   ("duke health", "Epic", 90/100),
   ("university of michigan", "Epic", 90/100),
   ("upmc", "Epic", 90/100),
   ("partners healthcare", "Epic", 90/100),
   ("mass general", "Epic", 90/100),
   ("brigham", "Epic", 90/100),
   ("northwestern medicine", "Epic", 90/100),
   ("rush", "Epic", 85/100),
   ("atrium health", "Epic", 85/100),
   ("geisinger", "Epic", 90/100),
   ("scripps", "Epic", 85/100),
   ("sharp healthcare", "Epic", 85/100),
   ("hca healthcare", "Cerner", 90/100),
   ("community health systems", "Cerner", 85/100),
   ("us department of veterans affairs", "Cerner", 95/100),
   ("va health", "Cerner", 95/100),
   ("department of defense", "Cerner", 90/100),
   ("tricare", "Cerner", 85/100),
   ("adventist health", "Cerner", 85/100),
   ("bon secours", "Cerner", 85/100),
   ("christus health", "Cerner", 85/100),
   ("lifepoint", "Cerner", 80/100),
   ("one medical", "Athena", 85/100),
   ("citymd", "Athena", 80/100)]

/-- The per-state distribution used for states absent from the table
(`STATE_EMR_DISTRIBUTION["DEFAULT"]`). -/
def DEFAULT_DIST : List (String × ℚ) :=
  [("Epic", 40/100), ("Cerner", 25/100), ("Athena", 18/100),
   ("eClinicalWorks", 12/100), ("Other", 5/100)]

/-- The `STATE_EMR_DISTRIBUTION` table, in source order. -/
def STATE_EMR_DISTRIBUTION : List (String × List (String × ℚ)) :=
  [("NY", [("Epic", 55/100), ("Cerner", 20/100), ("Athena", 15/100), ("eClinicalWorks", 7/100), ("Other", 3/100)]),
   ("MA", [("Epic", 65/100), ("Cerner", 15/100), ("Athena", 12/100), ("eClinicalWorks", 5/100), ("Other", 3/100)]),
   ("PA", [("Epic", 50/100), ("Cerner", 25/100), ("Athena", 12/100), ("eClinicalWorks", 8/100), ("Other", 5/100)]),
   ("NJ", [("Epic", 50/100), ("Cerner", 22/100), ("Athena", 15/100), ("eClinicalWorks", 8/100), ("Other", 5/100)]),
   ("CT", [("Epic", 55/100), ("Cerner", 18/100), ("Athena", 15/100), ("eClinicalWorks", 7/100), ("Other", 5/100)]),
   ("MD", [("Epic", 52/100), ("Cerner", 20/100), ("Athena", 15/100), ("eClinicalWorks", 8/100), ("Other", 5/100)]),
   ("IL", [("Epic", 45/100), ("Cerner", 30/100), ("Athena", 12/100), ("eClinicalWorks", 8/100), ("Other", 5/100)]),
   ("OH", [("Epic", 40/100), ("Cerner", 35/100), ("Athena", 12/100), ("eClinicalWorks", 8/100), ("Other", 5/100)]),
   ("MI", [("Epic", 45/100), ("Cerner", 28/100), ("Athena", 14/100), ("eClinicalWorks", 8/100), ("Other", 5/100)]),
   ("IN", [("Epic", 38/100), ("Cerner", 32/100), ("Athena", 15/100), ("eClinicalWorks", 10/100), ("Other", 5/100)]),
   ("WI", [("Epic", 55/100), ("Cerner", 22/100), ("Athena", 12/100), ("eClinicalWorks", 6/100), ("Other", 5/100)]),
   ("MN", [("Epic", 60/100), ("Cerner", 18/100), ("Athena", 12/100), ("eClinicalWorks", 5/100), ("Other", 5/100)]),
   ("MO", [("Epic", 35/100), ("Cerner", 40/100), ("Athena", 12/100), ("eClinicalWorks", 8/100), ("Other", 5/100)]),
   ("KS", [("Epic", 30/100), ("Cerner", 45/100), ("Athena", 12/100), ("eClinicalWorks", 8/100), ("Other", 5/100)]),
   ("TX", [("Epic", 35/100), ("Cerner", 28/100), ("Athena", 20/100), ("eClinicalWorks", 12/100), ("Other", 5/100)]),
   ("FL", [("Epic", 38/100), ("Cerner", 25/100), ("Athena", 22/100), ("eClinicalWorks", 10/100), ("Other", 5/100)]),
   ("GA", [("Epic", 40/100), ("Cerner", 25/100), ("Athena", 20/100), ("eClinicalWorks", 10/100), ("Other", 5/100)]),
   ("NC", [("Epic", 45/100), ("Cerner", 22/100), ("Athena", 18/100), ("eClinicalWorks", 10/100), ("Other", 5/100)]),
   ("TN", [("Epic", 38/100), ("Cerner", 28/100), ("Athena", 18/100), ("eClinicalWorks", 10/100), ("Other", 6/100)]),
   ("VA", [("Epic", 42/100), ("Cerner", 28/100), ("Athena", 16/100), ("eClinicalWorks", 9/100), ("Other", 5/100)]),
   ("SC", [("Epic", 38/100), ("Cerner", 25/100), ("Athena", 20/100), ("eClinicalWorks", 12/100), ("Other", 5/100)]),
   ("AL", [("Epic", 35/100), ("Cerner", 28/100), ("Athena", 20/100), ("eClinicalWorks", 12/100), ("Other", 5/100)]),
   ("LA", [("Epic", 32/100), ("Cerner", 30/100), ("Athena", 20/100), ("eClinicalWorks", 12/100), ("Other", 6/100)]),
   ("CA", [("Epic", 55/100), ("Cerner", 18/100), ("Athena", 15/100), ("eClinicalWorks", 8/100), ("Other", 4/100)]),
   ("WA", [("Epic", 55/100), ("Cerner", 20/100), ("Athena", 14/100), ("eClinicalWorks", 6/100), ("Other", 5/100)]),
   ("OR", [("Epic", 52/100), ("Cerner", 22/100), ("Athena", 14/100), ("eClinicalWorks", 7/100), ("Other", 5/100)]),
   ("CO", [("Epic", 48/100), ("Cerner", 25/100), ("Athena", 15/100), ("eClinicalWorks", 7/100), ("Other", 5/100)]),
   ("AZ", [("Epic", 42/100), ("Cerner", 25/100), ("Athena", 18/100), ("eClinicalWorks", 10/100), ("Other", 5/100)]),
   ("NV", [("Epic", 40/100), ("Cerner", 25/100), ("Athena", 20/100), ("eClinicalWorks", 10/100), ("Other", 5/100)]),
   ("UT", [("Epic", 55/100), ("Cerner", 20/100), ("Athena", 14/100), ("eClinicalWorks", 6/100), ("Other", 5/100)]),
   ("DEFAULT", DEFAULT_DIST)]

/-- The `SIZE_KEYWORDS` table, in source (insertion) order:
Large, Medium, Small, Solo. -/
def SIZE_KEYWORDS : List (String × List String) :=
  [("Large", ["hospital", "medical center", "health system", "health network",
              "healthcare system", "university", "regional", "memorial",
              "medical group", "multispecialty"]),
   ("Medium", ["group", "associates", "partners", "physicians", "specialists",
               "clinic group", "medical associates", "health partners"]),
   ("Small", ["clinic", "practice", "family", "office", "care center",
              "wellness", "health center"]),
   ("Solo", ["md", "do", "physician", "doctor"])]

/-- The modifier row used for sizes absent from the table
(`SIZE_EMR_MODIFIERS["Small"]`). -/
def SMALL_MODS : List (String × ℚ) :=
  [("Epic", 6/10), ("Cerner", 7/10), ("Athena", 15/10),
   ("eClinicalWorks", 14/10), ("Other", 12/10)]

/-- The `SIZE_EMR_MODIFIERS` table, in source order. -/
def SIZE_EMR_MODIFIERS : List (String × List (String × ℚ)) :=
  [("Large", [("Epic", 14/10), ("Cerner", 13/10), ("Athena", 5/10), ("eClinicalWorks", 3/10), ("Other", 5/10)]),
   ("Medium", [("Epic", 11/10), ("Cerner", 11/10), ("Athena", 12/10), ("eClinicalWorks", 9/10), ("Other", 8/10)]),
   ("Small", SMALL_MODS),
   ("Solo", [("Epic", 3/10), ("Cerner", 4/10), ("Athena", 13/10), ("eClinicalWorks", 18/10), ("Other", 15/10)])]

/-- The inner double loop of `estimate_clinic_size`: first keyword set, then
first keyword inside the set, that occurs in the lowercased name. -/
def findSizeKeyword : List (String × List String) → String → Option (String × String)
  | [], _ => none
  | (size, kws) :: rest, orgLower =>
    match kws.find? (fun kw => containsSub orgLower kw) with
    | some kw => some (size, kw)
    | none => findSizeKeyword rest orgLower

/-- `estimate_clinic_size` from `app/core/emr_estimator.py`. -/
def estimate_clinic_size (organization_name : String) (specialty : String := "") :
    ClinicSizeEstimate :=
  let org_lower := strLower organization_name
  match findSizeKeyword SIZE_KEYWORDS org_lower with
  | some (size, keyword) =>
    { clinic_size := size
      confidence := if size == "Large" || size == "Medium" then 75/100 else 65/100
      reasoning := "Organization name contains " ++ sglQuote ++ keyword ++ sglQuote ++
        " indicating " ++ size ++ " practice" }
  | none =>
    let words := splitWs organization_name
    if words.length ≤ 4 &&
        (["dr.", "md", "do", "m.d.", "d.o."].any (fun t => containsSub org_lower t)) then
      { clinic_size := "Solo"
        confidence := 60/100
        reasoning := "Organization name appears to be a single physician practice" }
    else
      { clinic_size := "Small"
        confidence := 45/100
        reasoning := "Unable to determine size from organization name, defaulting to Small" }

/-- First table entry whose name occurs in the lowercased organization name
(step 1 of `estimate_emr_system`). -/
def knownMatch (organization_name : String) : Option (String × String × ℚ) :=
  KNOWN_HOSPITAL_SYSTEMS.find? (fun e => containsSub (strLower organization_name) e.1)

/-- State distribution lookup with fallback to the DEFAULT row
(step 2 of `estimate_emr_system`). -/
def distOf (state : String) : List (String × ℚ) :=
  lookupD STATE_EMR_DISTRIBUTION (strUpper state) DEFAULT_DIST

/-- Size-modifier lookup with fallback to the Small row
(step 3 of `estimate_emr_system`). -/
def modsOf (clinic_size : String) : List (String × ℚ) :=
  lookupD SIZE_EMR_MODIFIERS clinic_size SMALL_MODS

/-- Weighted (pre-normalization) probabilities: each base probability times
`size_modifiers.get(emr, 1.0)`. -/
def weightedOf (d m : List (String × ℚ)) : List (String × ℚ) :=
  d.map (fun e => (e.1, e.2 * lookupD m e.1 1))

/-- The renormalization divisor of `estimate_emr_system`. -/
def totalOf (d m : List (String × ℚ)) : ℚ :=
  ((weightedOf d m).map (fun e => e.2)).sum

/-- The renormalized weighted probabilities. -/
def normOf (d m : List (String × ℚ)) : List (String × ℚ) :=
  (weightedOf d m).map (fun e => (e.1, e.2 / totalOf d m))

/-- Python's `max(weighted_probs, key=weighted_probs.get)`: the first entry
holding the maximal value, in iteration order. -/
def argmaxOf : List (String × ℚ) → String × ℚ
  | [] => ("", 0)
  | x :: xs => xs.foldl (fun acc y => if acc.2 < y.2 then y else acc) x

/-- The probabilities sorted descending, as
`sorted(weighted_probs.values(), reverse=True)`. -/
def sortedValsOf (d m : List (String × ℚ)) : List ℚ :=
  sortDescQ ((normOf d m).map (fun e => e.2))

/-- The confidence before rounding: base 0.50 plus the margin between the two
leading renormalized probabilities, capped at 0.85; when fewer than two
entries exist the arg-max probability itself is kept. -/
def rawConfOf (d m : List (String × ℚ)) : ℚ :=
  match sortedValsOf d m with
  | a :: b :: _ => min (85/100) (50/100 + (a - b))
  | _ => (argmaxOf (normOf d m)).2

/-- `estimate_emr_system` from `app/core/emr_estimator.py`. -/
def estimate_emr_system (organization_name state : String)
    (clinic_size : String := "Small") : EMREstimate :=
  match knownMatch organization_name with
  | some (system_name, emr, confidence) =>
    { emr_system := emr
      confidence := confidence
      reasoning := "Matched known health system: " ++ pyTitle system_name }
  | none =>
    let d := distOf state
    let m := modsOf clinic_size
    { emr_system := (argmaxOf (normOf d m)).1
      confidence := pyRound2 (rawConfOf d m)
      reasoning := "Based on " ++ state ++ " state market data and " ++
        clinic_size ++ " practice patterns" }

/-- `estimate_provider_systems` from `app/core/emr_estimator.py`. -/
def estimate_provider_systems (organization_name state : String)
    (specialty : String := "") : ClinicSizeEstimate × EMREstimate :=
  let size_estimate := estimate_clinic_size organization_name specialty
  let emr_estimate := estimate_emr_system organization_name state size_estimate.clinic_size
  (size_estimate, emr_estimate)

/-! ## `app/core/nppes_client.py` -/

/-- The `SPECIALTY_TAXONOMY_MAP` table. -/
def SPECIALTY_TAXONOMY_MAP : List (String × String) :=
  [("Primary Care", "Internal Medicine"),
   ("Family Medicine", "Family Medicine"),
   ("Cardiology", "Cardiovascular Disease"),
   ("Dermatology", "Dermatology"),
   ("Orthopedics", "Orthopaedic Surgery"),
   ("Pediatrics", "Pediatrics"),
   ("Neurology", "Neurology"),
   ("Oncology", "Medical Oncology"),
   ("Psychiatry", "Psychiatry"),
   ("Gastroenterology", "Gastroenterology"),
   ("Pulmonology", "Pulmonary Disease"),
   ("Endocrinology", "Endocrinology, Diabetes & Metabolism"),
   ("Rheumatology", "Rheumatology"),
   ("Nephrology", "Nephrology"),
   ("Urology", "Urology")]

/-- The `MAJOR_CITIES_STATE_MAP` table (the duplicated `"phoenix"` literal of
the source collapses to one dict entry). -/
def MAJOR_CITIES_STATE_MAP : List (String × String) :=
  [("new york", "NY"), ("los angeles", "CA"), ("chicago", "IL"),
   ("houston", "TX"), ("phoenix", "AZ"), ("philadelphia", "PA"),
   ("san antonio", "TX"), ("san diego", "CA"), ("dallas", "TX"),
   ("san jose", "CA"), ("austin", "TX"), ("jacksonville", "FL"),
   ("fort worth", "TX"), ("columbus", "OH"), ("charlotte", "NC"),
   ("san francisco", "CA"), ("indianapolis", "IN"), ("seattle", "WA"),
   ("denver", "CO"), ("boston", "MA"), ("nashville", "TN"),
   ("detroit", "MI"), ("novi", "MI"), ("ann arbor", "MI"),
   ("grand rapids", "MI"), ("portland", "OR"), ("las vegas", "NV"),
   ("miami", "FL"), ("atlanta", "GA"), ("baltimore", "MD"),
   ("minneapolis", "MN"), ("cleveland", "OH"), ("pittsburgh", "PA"),
   ("orlando", "FL"), ("tampa", "FL"), ("milwaukee", "WI")]

/-- `guess_state_from_city` from `app/core/nppes_client.py`. -/
def guess_state_from_city (city : String) : Option String :=
  (MAJOR_CITIES_STATE_MAP.find? (fun p => p.1 == pyStrip (strLower city))).map (fun p => p.2)

/-- `map_specialty_to_taxonomy` from `app/core/nppes_client.py`. -/
def map_specialty_to_taxonomy (specialty : String) : String :=
  lookupD SPECIALTY_TAXONOMY_MAP specialty specialty

/-- The `basic` sub-dictionary of a raw NPPES result; absent keys are `none`. -/
structure NppesBasic where
  first_name : Option String := none
  last_name : Option String := none
  credential : Option String := none
  organization_name : Option String := none
deriving DecidableEq

/-- One entry of the `addresses` list of a raw NPPES result. -/
structure NppesAddress where
  address_purpose : Option String := none
  address_1 : Option String := none
  address_2 : Option String := none
  city : Option String := none
  state : Option String := none
  postal_code : Option String := none
  telephone_number : Option String := none
  fax_number : Option String := none
deriving DecidableEq

/-- One entry of the `endpoints` list of a raw NPPES result. -/
structure NppesEndpoint where
  endpointType : Option String := none
  endpoint : Option String := none
deriving DecidableEq

/-- A raw NPPES API result. -/
structure NppesResult where
  number : Option String := none
  basic : NppesBasic := {}
  addresses : List NppesAddress := []
  endpoints : List NppesEndpoint := []
deriving DecidableEq

/-- The provider dictionary built by `search_providers`. -/
structure NppesProvider where
  npi : Option String
  name : String
  address : String
  city : String
  state : String
  zip : String
  phone : Option String
  fax : Option String
  specialty : String
  organization_name : Option String
  direct_messaging_address : Option String
deriving DecidableEq

/-- The endpoint scan of `search_providers`: each DIRECT-typed endpoint
reassigns the value; the loop breaks at the first truthy one. -/
def findDirectAux (acc : Option String) : List NppesEndpoint → Option String
  | [] => acc
  | e :: rest =>
    if strUpper (e.endpointType.getD "") == "DIRECT" then
      if truthy e.endpoint then e.endpoint else findDirectAux e.endpoint rest
    else findDirectAux acc rest

/-- Direct-messaging address extraction from the `endpoints` list. -/
def findDirect (endpoints : List NppesEndpoint) : Option String :=
  findDirectAux none endpoints

/-- The `is_suite_number` check of `search_providers` (applied to the
lowercased, stripped second address line). -/
def isSuiteNumber (s : String) : Bool :=
  ["suite", "ste ", "ste.", "#", "floor", "fl ", "unit", "apt", "bldg",
   "building"].any (fun p => p.data.isPrefixOf s.data)

/-- `XXX-XXX-XXXX` formatting from a list of digit characters. -/
def fmtDigits (ds : List Char) : String :=
  String.mk (ds.take 3) ++ "-" ++ String.mk ((ds.drop 3).take 3) ++ "-" ++
    String.mk (ds.drop 6)

/-- The phone/fax normalization of `search_providers`: strip non-digits,
format 10-digit numbers, drop a leading country code `1` from 11-digit
numbers, otherwise leave the string unchanged. -/
def formatPhone (phone : String) : String :=
  if phone != "" then
    let ds := phone.data.filter Char.isDigit
    if ds.length == 10 then fmtDigits ds
    else if ds.length == 11 && (ds.headD ' ' == '1') then fmtDigits (ds.drop 1)
    else phone
  else phone

/-- The per-result extraction loop body of `search_providers`: `none` models
the `continue` branches (missing name or missing address). -/
def processResult (city : String) (state : Option String) (taxonomy : String)
    (result : NppesResult) : Option NppesProvider :=
  let first_name := pyTitle (result.basic.first_name.getD "")
  let last_name := pyTitle (result.basic.last_name.getD "")
  let credential := result.basic.credential.getD "MD"
  if first_name == "" || last_name == "" then none
  else
    let practice_address :=
      match result.addresses.find? (fun a => a.address_purpose.getD "" == "LOCATION") with
      | some a => some a
      | none => result.addresses.head?
    match practice_address with
    | none => none
    | some pa =>
      let name0 := "Dr. " ++ first_name ++ " " ++ last_name
      let name := if credential != "" then name0 ++ ", " ++ credential else name0
      let org_name : Option String :=
        if result.basic.organization_name.getD "" != "" then
          result.basic.organization_name
        else
          let address_2 := pa.address_2.getD ""
          if address_2 != "" then
            if !isSuiteNumber (pyStrip (strLower address_2)) && address_2.length > 5 then
              some address_2
            else none
          else none
      let phone := formatPhone (pa.telephone_number.getD "")
      let fax := formatPhone (pa.fax_number.getD "")
      some { npi := result.number
             name := name
             address := pa.address_1.getD ""
             city := pyTitle (pa.city.getD city)
             state := pa.state.getD (state.getD "")
             zip := String.mk ((pa.postal_code.getD "").data.take 5)
             phone := if phone != "" then some phone else none
             fax := if fax != "" then some fax else none
             specialty := taxonomy
             organization_name := org_name
             direct_messaging_address := findDirect result.endpoints }

/-- The single query `search_providers` sends to the registry; the request
dictionary has no offset or cursor key at all. -/
structure NppesQuery where
  version : String
  city : String
  enumeration_type : String
  taxonomy_description : String
  limit : Nat
  state : Option String
deriving DecidableEq

/-- `search_providers` from `app/core/nppes_client.py`, with the registry
HTTP call abstracted as an oracle; the first component records every request
issued during the call, the second is the returned provider list.  A
transport error or malformed payload (`Except.error`) yields `[]`. -/
def search_providers (registry : NppesQuery → Except Unit (List NppesResult))
    (city : String) (state : Option String := none)
    (specialty : String := "Internal Medicine") (limit : Nat := 5) :
    List NppesQuery × List NppesProvider :=
  let st := if truthy state then state else guess_state_from_city city
  let taxonomy := map_specialty_to_taxonomy specialty
  let q : NppesQuery :=
    { version := "2.1", city := city, enumeration_type := "NPI-1",
      taxonomy_description := taxonomy, limit := min (limit * 2) 50, state := st }
  match registry q with
  | .error _ => ([q], [])
  | .ok results => ([q], (results.take limit).filterMap (processResult city st taxonomy))

/-! ## `app/core/apollo_client.py` -/

/-- The `organization` sub-dictionary of an Apollo person. -/
structure ApolloOrg where
  name : Option String := none
  website_url : Option String := none
deriving DecidableEq

/-- One person entry of an Apollo `mixed_people/api_search` response. -/
structure ApolloPerson where
  id : String
  title : Option String := none
  organization : Option ApolloOrg := none
  first_name : Option String := none
  last_name : Option String := none
  has_email : Bool := false
deriving DecidableEq

/-- The person object of an Apollo `people/match` response. -/
structure ApolloDetail where
  first_name : Option String := none
  last_name : Option String := none
  email : Option String := none
  email_status : Option String := none
  title : Option String := none
  organization : Option ApolloOrg := none
  linkedin_url : Option String := none
  phone_numbers : List String := []
deriving DecidableEq

/-- `ApolloEmailResult` from `app/core/apollo_client.py`. -/
structure ApolloEmailResult where
  email : String
  email_status : String
  confidence : ℚ
  organization : String
  linkedin_url : String
  phone_numbers : List String
  website_url : String
  data_source : String := "apollo.io"
deriving DecidableEq

/-- The medical-title keyword list of `_calculate_healthcare_score`
(0.6 weight). -/
def SCORE_TITLE_KEYWORDS : List String :=
  ["physician", "doctor", "surgeon", "md", "medical director",
   "cardiologist", "neurologist", "clinical", "assistant professor",
   "fellow", "palliative care", "hospitalist", "resident",
   "nurse", "rn", "pa", "nurse practitioner", "therapist",
   "internist", "pediatrician", "psychiatrist", "dentist",
   "optometrist", "pharmacist", "radiologist", "pathologist"]

/-- The healthcare-organization keyword list of
`_calculate_healthcare_score` (0.3 weight). -/
def SCORE_ORG_KEYWORDS : List String :=
  ["hospital", "medical", "health", "clinic", "healthcare", "physician",
   "university", "care center", "practice", "hospice", "palliative"]

/-- `_calculate_healthcare_score` from `app/core/apollo_client.py`:
weighted healthcare-relevance score of a search candidate, capped at 1. -/
def calculate_healthcare_score (person : ApolloPerson) : ℚ :=
  let title := strLower (person.title.getD "")
  let org_name :=
    match person.organization with
    | some org => strLower (org.name.getD "")
    | none => ""
  let titleScore : ℚ :=
    if SCORE_TITLE_KEYWORDS.any (fun k => containsSub title k) then 6/10
    else if containsSub title "care" &&
        (containsSub title "health" || containsSub title "medical" ||
         containsSub title "hospice") then 5/10
    else if containsSub title "professor" &&
        (containsSub title "medicine" || containsSub title "health" ||
         containsSub title "clinical") then 3/10
    else 0
  let orgScore : ℚ :=
    if SCORE_ORG_KEYWORDS.any (fun k => containsSub org_name k) then 3/10 else 0
  let emailScore : ℚ := if person.has_email then 2/10 else 0
  min (titleScore + orgScore + emailScore) 1

/-- One payload of the `mixed_people/api_search` endpoint;
`person_locations = none` models the key being absent. -/
structure ApolloSearchPayload where
  q_keywords : String
  person_locations : Option (List String)
  per_page : Nat
deriving DecidableEq

/-- The strategy list of `_hierarchical_search`, after dropping `None`
strategies and `None` payload values: city+state, then state only,
then no location. -/
def buildStrategies (first_name last_name : String) (city state : Option String) :
    List (String × ApolloSearchPayload) :=
  let kw := first_name ++ " " ++ last_name
  (if truthy city && truthy state then
    [("city_state",
      { q_keywords := kw,
        person_locations := some [(city.getD "") ++ ", " ++ (state.getD "")],
        per_page := 20 })]
   else []) ++
  (if truthy state then
    [("state_only",
      { q_keywords := kw, person_locations := some [state.getD ""], per_page := 20 })]
   else []) ++
  [("no_location", { q_keywords := kw, person_locations := none, per_page := 20 })]

/-- Insertion step of a stable descending sort by score. -/
def insertScored (a : ApolloPerson × ℚ) :
    List (ApolloPerson × ℚ) → List (ApolloPerson × ℚ)
  | [] => [a]
  | b :: l => if b.2 ≤ a.2 then a :: b :: l else b :: insertScored a l

/-- Stable descending sort by score, as
`people.sort(key=lambda x: x["_score"], reverse=True)`. -/
def sortScoredDesc : List (ApolloPerson × ℚ) → List (ApolloPerson × ℚ)
  | [] => []
  | a :: l => insertScored a (sortScoredDesc l)

/-- The strategy loop of `_hierarchical_search`: an erroring or empty
strategy falls through to the next; the first strategy with candidates wins
and its candidates are scored and sorted descending. -/
def tryStrategies (searchOracle : ApolloSearchPayload → Except Unit (List ApolloPerson)) :
    List (String × ApolloSearchPayload) → List (ApolloPerson × ℚ) × String
  | [] => ([], "failed")
  | (name, payload) :: rest =>
    match searchOracle payload with
    | .error _ => tryStrategies searchOracle rest
    | .ok [] => tryStrategies searchOracle rest
    | .ok (p :: ps) =>
      (sortScoredDesc ((p :: ps).map (fun x => (x, calculate_healthcare_score x))), name)

/-- `_hierarchical_search` from `app/core/apollo_client.py`, with the search
HTTP call abstracted as an oracle. -/
def hierarchical_search (searchOracle : ApolloSearchPayload → Except Unit (List ApolloPerson))
    (first_name last_name : String) (city state : Option String) :
    List (ApolloPerson × ℚ) × String :=
  tryStrategies searchOracle (buildStrategies first_name last_name city state)

/-- The `ApolloEmailResult` construction shared by `enrich_person_by_name`
and `enrich_person_by_id` (the post-hoc medical classification of the source
only logs and never changes the returned value). -/
def buildApolloResult (person : ApolloDetail) : ApolloEmailResult :=
  let org_name :=
    match person.organization with
    | some org => org.name.getD ""
    | none => ""
  let email_status := person.email_status.getD "unknown"
  { email := person.email.getD ""
    email_status := email_status
    confidence := if email_status == "verified" then 95/100 else 75/100
    organization := org_name
    linkedin_url := person.linkedin_url.getD ""
    phone_numbers := person.phone_numbers
    website_url :=
      match person.organization with
      | some org => org.website_url.getD ""
      | none => "" }

/-- `enrich_person_by_id` from `app/core/apollo_client.py`: a transport
error, a missing person or a missing email yields `none`. -/
def enrich_person_by_id (idOracle : String → Except Unit (Option ApolloDetail))
    (person_id : String) : Option ApolloEmailResult :=
  match idOracle person_id with
  | .error _ => none
  | .ok none => none
  | .ok (some person) =>
    if truthy person.email then some (buildApolloResult person) else none

/-- `_search_person_by_name` from `app/core/apollo_client.py`.  The first
component is the source's return value; the second counts the calls made to
the detail-resolving `enrich_person_by_id` lookup.  A top candidate scoring
below `MEDICAL_THRESHOLD = 0.6` is rejected without that second lookup. -/
def search_person_by_name
    (searchOracle : ApolloSearchPayload → Except Unit (List ApolloPerson))
    (idOracle : String → Except Unit (Option ApolloDetail))
    (first_name last_name : String) (city state : Option String) :
    Option ApolloEmailResult × Nat :=
  match (hierarchical_search searchOracle first_name last_name city state).1 with
  | [] => (none, 0)
  | best :: _ =>
    if best.2 < 6/10 then (none, 0)
    else (enrich_person_by_id idOracle best.1.id, 1)

/-- The `generic_org_names` placeholder list of `enrich_person_by_name`. -/
def generic_org_names : List String :=
  ["private practice", "individual practice", "no nppes org data",
   "not available", "n/a", ""]

/-- The payload of the `people/match` endpoint; the optional keys are
included only when truthy, as in the source. -/
structure ApolloMatchPayload where
  first_name : String
  last_name : String
  organization_name : String
  domain : Option String := none
  email : Option String := none
  linkedin_url : Option String := none
deriving DecidableEq

/-- `enrich_person_by_name` from `app/core/apollo_client.py`: a generic or
absent organization name routes to the hierarchical name search, otherwise a
single `people/match` lookup is issued; transport errors, missing persons
and missing emails all yield `none`. -/
def enrich_person_by_name
    (matchOracle : ApolloMatchPayload → Except Unit (Option ApolloDetail))
    (searchOracle : ApolloSearchPayload → Except Unit (List ApolloPerson))
    (idOracle : String → Except Unit (Option ApolloDetail))
    (first_name last_name : String)
    (organization_name domain email linkedin_url city state : Option String) :
    Option ApolloEmailResult :=
  let org :=
    if truthy organization_name &&
        generic_org_names.contains (pyStrip (strLower (organization_name.getD ""))) then
      none
    else organization_name
  if !truthy org then
    (search_person_by_name searchOracle idOracle first_name last_name city state).1
  else
    let payload : ApolloMatchPayload :=
      { first_name := first_name
        last_name := last_name
        organization_name := org.getD ""
        domain := if truthy domain then domain else none
        email := if truthy email then email else none
        linkedin_url := if truthy linkedin_url then linkedin_url else none }
    match matchOracle payload with
    | .error _ => none
    | .ok none => none
    | .ok (some person) =>
      if truthy person.email then some (buildApolloResult person) else none

/-- One element of the `people_data` argument of `enrich_multiple_people`. -/
structure PersonInput where
  first_name : Option String := none
  last_name : Option String := none
  organization_name : Option String := none
  clinic_name : Option String := none
  domain : Option String := none
  email : Option String := none
  linkedin_url : Option String := none
  city : Option String := none
  state : Option String := none
deriving DecidableEq

/-- The per-person task built inside `enrich_multiple_people`. -/
def enrich_one
    (matchOracle : ApolloMatchPayload → Except Unit (Option ApolloDetail))
    (searchOracle : ApolloSearchPayload → Except Unit (List ApolloPerson))
    (idOracle : String → Except Unit (Option ApolloDetail))
    (person : PersonInput) : Option ApolloEmailResult :=
  enrich_person_by_name matchOracle searchOracle idOracle
    (person.first_name.getD "") (person.last_name.getD "")
    (pyOr person.organization_name person.clinic_name)
    person.domain person.email person.linkedin_url person.city person.state

/-- `enrich_multiple_people` from `app/core/apollo_client.py`:
`asyncio.gather` preserves the order of the submitted tasks, so the batch
denotes to one independent lookup per input entry, joined in input order. -/
def enrich_multiple_people
    (matchOracle : ApolloMatchPayload → Except Unit (Option ApolloDetail))
    (searchOracle : ApolloSearchPayload → Except Unit (List ApolloPerson))
    (idOracle : String → Except Unit (Option ApolloDetail))
    (people_data : List PersonInput) : List (Option ApolloEmailResult) :=
  people_data.map (enrich_one matchOracle searchOracle idOracle)

/-! ## `app/services/lead_service.py` and the `Lead` document -/

/-- The stored `Lead` document (`app/models/lead.py`); MongoDB null and an
absent optional field are both modelled by `none`. -/
structure LeadRec where
  npi : Option String
  name : String
  clinic_name : String
  address : String
  city : String
  state : String
  specialty : String
  phone : Option String := none
  fax : Option String := none
  email : Option String := none
  has_email : Bool := false
  is_emailed : Bool := false
  visited : Bool := false
  website : Option String := none
  profile_url : Option String := none
  direct_messaging_address : Option String := none
  emr_system : Option String := none
  emr_confidence : Option ℚ := none
  emr_source : Option String := none
  clinic_size : Option String := none
  size_confidence : Option ℚ := none
  apollo_email : Option String := none
  apollo_email_status : Option String := none
  apollo_confidence : Option ℚ := none
  apollo_linkedin : Option String := none
  apollo_phone_numbers : Option (List String) := none
  apollo_organization : Option String := none
  apollo_website : Option String := none
  apollo_searched : Bool := false
  email_valid : Option Bool := none
  email_verification : Option String := none
  data_source : Option String := none
  enrichment_status : String := "scout_only"
  created_at : Nat := 0
  last_enriched_at : Option Nat := none
deriving DecidableEq

/-- One element of the `leads` list of an Apollo enrichment response
(`ml_service.call_apollo`); the verification payload is kept opaque. -/
structure ApolloData where
  apollo_email : Option String := none
  apollo_email_status : Option String := none
  apollo_confidence : Option ℚ := none
  apollo_linkedin : Option String := none
  apollo_phone_numbers : Option (List String) := none
  apollo_organization : Option String := none
  apollo_website : Option String := none
  email_valid : Option Bool := none
  email_verification : Option String := none
deriving DecidableEq

/-- The result dictionary of `load_leads_from_nppes`, with the stored
collection threaded through. -/
structure LoadResult where
  db : List LeadRec
  leads_loaded : Nat
  with_email : Nat
  without_email : Nat
deriving DecidableEq

/-- One iteration of the provider loop of `load_leads_from_nppes`: a
duplicate NPI is skipped, otherwise the email fallback (registry email,
then direct-messaging address), the estimators and the insert run.  The
provider dictionary built by `search_providers` carries no `"email"` key,
so `provider.get("email")` is always `none`. -/
def loadStep (location specialty : String) (now : Nat) (acc : LoadResult)
    (provider : NppesProvider) : LoadResult :=
  let npi := provider.npi
  if acc.db.any (fun r => r.npi == npi) then acc
  else
    let provider_email : Option String := none
    let (email, has_email) : Option String × Bool :=
      if truthy provider_email then (provider_email, true)
      else if truthy provider.direct_messaging_address then
        (provider.direct_messaging_address, true)
      else (none, false)
    let state := strUpper provider.state
    let org_name :=
      match provider.organization_name with
      | some s => if s != "" then s else "Private Practice"
      | none => "Private Practice"
    let estimates := estimate_provider_systems org_name state specialty
    let lead : LeadRec :=
      { npi := npi
        name := provider.name
        clinic_name := org_name
        address := provider.address
        city := provider.city
        state := state
        specialty := specialty
        phone := provider.phone
        fax := provider.fax
        email := email
        has_email := has_email
        website := none
        profile_url := none
        direct_messaging_address := provider.direct_messaging_address
        emr_system := some estimates.2.emr_system
        emr_confidence := some estimates.2.confidence
        emr_source := some "regional_estimate"
        clinic_size := some estimates.1.clinic_size
        size_confidence := some estimates.1.confidence
        data_source := some "nppes_enriched"
        enrichment_status := "scout_only"
        visited := false
        is_emailed := false
        created_at := now }
    { db := acc.db ++ [lead]
      leads_loaded := acc.leads_loaded + 1
      with_email := if has_email then acc.with_email + 1 else acc.with_email
      without_email := if has_email then acc.without_email else acc.without_email + 1 }

/-- `load_leads_from_nppes` from `app/services/lead_service.py`, applied to
the provider list already fetched from the registry. -/
def load_leads_from_nppes (db : List LeadRec) (providers : List NppesProvider)
    (location : String) (specialty : String) (now : Nat) : LoadResult :=
  providers.foldl (loadStep location specialty now)
    { db := db, leads_loaded := 0, with_email := 0, without_email := 0 }

/-- The selection predicate of step 1 of `recruit_leads`. -/
def unvisitedPred (location specialty : String) (r : LeadRec) : Bool :=
  r.city == location && r.specialty == specialty && r.visited == false

/-- Step 1 of `recruit_leads`: the first up to 10 stored records matching
city, specialty and `visited = false`, in store order. -/
def recruitSelectBatch (db : List LeadRec) (location specialty : String) :
    List LeadRec :=
  (db.filter (unvisitedPred location specialty)).take 10

/-- Step 5 of `recruit_leads`: the first up to 5 records with an email not
yet emailed, for the city and specialty. -/
def readyLeads (db : List LeadRec) (location specialty : String) : List LeadRec :=
  (db.filter (fun r => r.city == location && r.specialty == specialty &&
    r.has_email && !r.is_emailed)).take 5

/-- The name-cleaning chain of step 2 of `recruit_leads`: strip titles and
credentials, then split into first and last name. -/
def parseLeadName (name : String) : String × String :=
  let n := pyReplace (pyReplace name "Dr." "") "Dr " ""
  let n := pyReplace (pyReplace (pyReplace n "M.D." "") "MD" "") " MD" ""
  let n := pyReplace (pyReplace (pyReplace n "D.O." "") "DO" "") " DO" ""
  let n := pyStrip (pyReplace (pyReplace n "," "") "  " " ")
  let name_parts := splitWs n
  (name_parts.headD "", if name_parts.length > 1 then name_parts.getLastD "" else "")

/-- One element of the `apollo_input` list of step 2 of `recruit_leads`. -/
structure ApolloInputRec where
  name : String
  first_name : String
  last_name : String
  clinic_name : String
  address : String
  city : String
  state : String
  npi : Option String
  emr_system : Option String
  clinic_size : Option String
deriving DecidableEq

/-- Builds the `apollo_input` entry for one unvisited lead. -/
def mkApolloInput (lead : LeadRec) : ApolloInputRec :=
  let parsed := parseLeadName lead.name
  { name := lead.name
    first_name := parsed.1
    last_name := parsed.2
    clinic_name := lead.clinic_name
    address := lead.address
    city := lead.city
    state := lead.state
    npi := lead.npi
    emr_system := lead.emr_system
    clinic_size := lead.clinic_size }

/-- The `$set` update of step 4 of `recruit_leads`, applied to the stored
record `t` matched by NPI: `visited`, `apollo_searched` and
`last_enriched_at` are always set; the Apollo fields only when the response
carries an email; the primary email only when the batch lead had none. -/
def recruitUpdate (lead : LeadRec) (apollo_data : ApolloData) (now : Nat)
    (t : LeadRec) : LeadRec :=
  let base := { t with visited := true, apollo_searched := true,
                       last_enriched_at := some now }
  if truthy apollo_data.apollo_email then
    let b := { base with
      apollo_email := apollo_data.apollo_email
      apollo_email_status := apollo_data.apollo_email_status
      apollo_confidence := apollo_data.apollo_confidence
      apollo_linkedin := apollo_data.apollo_linkedin
      apollo_phone_numbers := apollo_data.apollo_phone_numbers
      apollo_organization := apollo_data.apollo_organization
      apollo_website := apollo_data.apollo_website
      email_valid := apollo_data.email_valid
      email_verification := apollo_data.email_verification
      enrichment_status := "apollo_enriched" }
    if !truthy lead.email then
      { b with email := apollo_data.apollo_email, has_email := true }
    else b
  else base

/-- `Lead.find_one({"npi": npi}).update(...)`: the first record with the
given NPI is rewritten in place. -/
def applyUpdate : List LeadRec → Option String → (LeadRec → LeadRec) → List LeadRec
  | [], _, _ => []
  | r :: rest, npi, f =>
    if r.npi == npi then f r :: rest else r :: applyUpdate rest npi f

/-- The enumeration of step 4: lead `i` is paired with response entry `i`,
or with an empty dictionary when the response list is shorter. -/
def recruitPairs (batch : List LeadRec) (apollo_enriched : List ApolloData) :
    List (LeadRec × ApolloData) :=
  batch.enum.map (fun p => (p.2, (apollo_enriched.get? p.1).getD {}))

/-- The database after the update loop of step 4 of `recruit_leads`. -/
def recruitUpdates (db : List LeadRec) (pairs : List (LeadRec × ApolloData))
    (now : Nat) : List LeadRec :=
  pairs.foldl (fun acc p => applyUpdate acc p.1.npi (recruitUpdate p.1 p.2 now)) db

/-- The observable outcome of one `recruit_leads` call: the stored
collection, the batch sent to the match engine, the enriched count and the
returned ready leads. -/
structure RecruitResult where
  db : List LeadRec
  apolloInput : List ApolloInputRec
  enriched_count : Nat
  returned : List LeadRec
deriving DecidableEq

/-- `recruit_leads` from `app/services/lead_service.py`, with the
`ml_client.call_apollo` response abstracted as an oracle over the submitted
input list.  Every fetched unvisited lead is sent to the match engine and
marked `visited` and `apollo_searched`; no budget is consulted anywhere. -/
def recruit_leads (db : List LeadRec) (location specialty : String)
    (apolloOracle : List ApolloInputRec → List ApolloData) (now : Nat) :
    RecruitResult :=
  let unvisited := recruitSelectBatch db location specialty
  match unvisited with
  | [] =>
    { db := db, apolloInput := [], enriched_count := 0
      returned := readyLeads db location specialty }
  | u :: us =>
    let apollo_input := (u :: us).map mkApolloInput
    let apollo_enriched := apolloOracle apollo_input
    let pairs := recruitPairs (u :: us) apollo_enriched
    let db2 := recruitUpdates db pairs now
    { db := db2
      apolloInput := apollo_input
      enriched_count := pairs.countP (fun p => truthy p.2.apollo_email)
      returned := readyLeads db2 location specialty }

/-- The input dictionary of `_prepare_lead_for_db` (a Scout lead). -/
structure ScoutLead where
  npi : Option String := none
  name : Option String := none
  clinic_name : Option String := none
  address : Option String := none
  city : Option String := none
  state : Option String := none
  phone : Option String := none
  fax : Option String := none
  website : Option String := none
  profile_url : Option String := none
  direct_messaging_address : Option String := none
  email : Option String := none
  emr_system : Option String := none
  emr_confidence : Option ℚ := none
  emr_source : Option String := none
  clinic_size : Option String := none
  size_confidence : Option ℚ := none
  data_source : Option String := none
deriving DecidableEq

/-- The dictionary returned by `_prepare_lead_for_db`. -/
structure PreparedLead where
  npi : Option String
  name : Option String
  clinic_name : Option String
  address : Option String
  city : Option String
  state : Option String
  specialty : String
  phone : Option String
  fax : Option String
  website : Option String
  profile_url : Option String
  direct_messaging_address : Option String
  emr_system : Option String
  emr_confidence : Option ℚ
  emr_source : Option String
  clinic_size : Option String
  size_confidence : Option ℚ
  data_source : Option String
  created_at : Nat
  is_emailed : Bool
  email : Option String
  has_email : Bool
  enrichment_status : String
  apollo_email : Option String := none
  apollo_email_status : Option String := none
  apollo_confidence : Option ℚ := none
  apollo_linkedin : Option String := none
  apollo_phone_numbers : Option (List String) := none
  apollo_organization : Option String := none
  apollo_website : Option String := none
  apollo_searched : Bool := false
  email_valid : Option Bool := none
  email_verification : Option String := none
  last_enriched_at : Option Nat := none
deriving DecidableEq

/-- `_prepare_lead_for_db` from `app/services/lead_service.py`: the Scout
email is set first (registry email, else direct-messaging address); when an
Apollo result exists its fields are merged, and the primary email is
replaced by the Apollo email whenever the *Scout registry email* was falsy
— even if a direct-messaging address had already filled it. -/
def prepare_lead_for_db (scout_lead : ScoutLead)
    (apollo_data : Option ApolloData := none)
    (specialty : String := "Primary Care") (now : Nat := 0) : PreparedLead :=
  let scout_email := scout_lead.email
  let direct_email := scout_lead.direct_messaging_address
  let (email0, has0) : Option String × Bool :=
    if truthy scout_email then (scout_email, true)
    else if truthy direct_email then (direct_email, true)
    else (none, false)
  let base : PreparedLead :=
    { npi := scout_lead.npi
      name := scout_lead.name
      clinic_name := scout_lead.clinic_name
      address := scout_lead.address
      city := scout_lead.city
      state := scout_lead.state
      specialty := specialty
      phone := scout_lead.phone
      fax := scout_lead.fax
      website := scout_lead.website
      profile_url := scout_lead.profile_url
      direct_messaging_address := scout_lead.direct_messaging_address
      emr_system := scout_lead.emr_system
      emr_confidence := scout_lead.emr_confidence
      emr_source := scout_lead.emr_source
      clinic_size := scout_lead.clinic_size
      size_confidence := scout_lead.size_confidence
      data_source := scout_lead.data_source
      created_at := now
      is_emailed := false
      email := email0
      has_email := has0
      enrichment_status := "scout_only" }
  match apollo_data with
  | none => base
  | some ad =>
    let apollo_email := ad.apollo_email
    let (email1, has1) : Option String × Bool :=
      if !truthy scout_email && truthy apollo_email then (apollo_email, true)
      else (email0, has0)
    let phone1 :=
      if !truthy base.phone then
        match ad.apollo_phone_numbers with
        | some (x :: _) => some x
        | _ => base.phone
      else base.phone
    let website1 :=
      if !truthy base.website && truthy ad.apollo_website then ad.apollo_website
      else base.website
    { base with
      email := email1
      has_email := has1
      apollo_email := apollo_email
      apollo_email_status := ad.apollo_email_status
      apollo_confidence := ad.apollo_confidence
      apollo_linkedin := ad.apollo_linkedin
      apollo_phone_numbers := ad.apollo_phone_numbers
      apollo_organization := ad.apollo_organization
      apollo_website := ad.apollo_website
      apollo_searched := true
      email_valid := ad.email_valid
      email_verification := ad.email_verification
      enrichment_status := "apollo_enriched"
      last_enriched_at := some now
      phone := phone1
      website := website1 }

/-- The default value (500) of the `APOLLO_TOTAL_CAP` setting from
`app/core/config.py`; the setting is read nowhere else in the code base. -/
def APOLLO_TOTAL_CAP : Nat := 500

/-- Count of stored records flagged `apollo_searched`. -/
def apolloSearchedCount (db : List LeadRec) : Nat :=
  db.countP (fun r => r.apollo_searched)

/-- The has-email consistency predicate of the data model:
`has_email == (email is not None and email != "")` for every record. -/
def hasEmailInv (db : List LeadRec) : Prop :=
  ∀ r ∈ db, r.has_email = truthy r.email

/-! ## Lemmas about the estimator tables -/

/-! ## Concrete fixtures and finite enumerations used by the claim theorems -/

/-- Every distribution `estimate_emr_system` can possibly use. -/
def allDists : List (List (String × ℚ)) :=
  DEFAULT_DIST :: STATE_EMR_DISTRIBUTION.map (fun p => p.2)

/-- Every modifier row `estimate_emr_system` can possibly use. -/
def allModRows : List (List (String × ℚ)) :=
  SMALL_MODS :: SIZE_EMR_MODIFIERS.map (fun p => p.2)

/-- An all-error detail oracle, for exercising the relevance gate. -/
def c6IdOracle : String → Except Unit (Option ApolloDetail) := fun _ => .error ()

/-- A non-medical search candidate (relevance score 0). -/
def c6Person : ApolloPerson :=
  { id := "p1", title := some "accountant", first_name := some "John",
    last_name := some "Smith" }

/-- A search oracle that always returns the single non-medical candidate. -/
def c6SearchOracle : ApolloSearchPayload → Except Unit (List ApolloPerson) :=
  fun _ => .ok [c6Person]

/-- An all-error match oracle. -/
def c9ErrMatch : ApolloMatchPayload → Except Unit (Option ApolloDetail) :=
  fun _ => .error ()

/-- An all-error search oracle. -/
def c9ErrSearch : ApolloSearchPayload → Except Unit (List ApolloPerson) :=
  fun _ => .error ()

/-- An all-error detail oracle. -/
def c9ErrId : String → Except Unit (Option ApolloDetail) := fun _ => .error ()

/-- A concrete two-person batch. -/
def c9Inputs : List PersonInput :=
  [{ first_name := some "John", last_name := some "Smith",
     clinic_name := some "Smith Clinic", city := some "Novi", state := some "MI" },
   { first_name := some "Amy", last_name := some "Lee",
     organization_name := some "Lee Cardiology Group" }]

/-- A concrete stored lead for the witness states. -/
def testLead (npi city specialty : String) (email : Option String)
    (he visited searched : Bool) : LeadRec :=
  { npi := some npi, name := "Dr. Test Person", clinic_name := "Private Practice",
    address := "1 Main St", city := city, state := "MI", specialty := specialty,
    email := email, has_email := he, visited := visited, apollo_searched := searched }

/-- A concrete raw provider with a direct-messaging address. -/
def c8Provider : NppesProvider :=
  { npi := some "100", name := "Dr. Amy Lee, MD", address := "1 Main St",
    city := "Novi", state := "MI", zip := "48375", phone := none, fax := none,
    specialty := "Family Medicine", organization_name := some "Mayo Clinic",
    direct_messaging_address := some "amy@direct.example" }

/-- A concrete store with one unvisited, email-less lead. -/
def c8Db : List LeadRec :=
  [testLead "1" "Novi" "Family Medicine" none false false false]

/-- A store already holding one `apollo_searched` record plus one unvisited
lead: with a configured cap of 1 the remaining budget is 0. -/
def c1Db : List LeadRec :=
  [testLead "1" "Novi" "Family Medicine" none false true true,
   testLead "2" "Novi" "Family Medicine" none false false false]

/-- An unvisited lead that already has an email. -/
def c2EmailLead : LeadRec :=
  testLead "10" "Novi" "Family Medicine" (some "doc@example.com") true false false

/-- A store with ten unvisited email-less leads ahead of one unvisited lead
with an email. -/
def c2Db : List LeadRec :=
  [testLead "0" "Novi" "Family Medicine" none false false false,
   testLead "1" "Novi" "Family Medicine" none false false false,
   testLead "2" "Novi" "Family Medicine" none false false false,
   testLead "3" "Novi" "Family Medicine" none false false false,
   testLead "4" "Novi" "Family Medicine" none false false false,
   testLead "5" "Novi" "Family Medicine" none false false false,
   testLead "6" "Novi" "Family Medicine" none false false false,
   testLead "7" "Novi" "Family Medicine" none false false false,
   testLead "8" "Novi" "Family Medicine" none false false false,
   testLead "9" "Novi" "Family Medicine" none false false false,
   c2EmailLead]

/-- Rewriting only the `has_email` flag of a record. -/
def hasEmailMap (f : Bool → Bool) (r : LeadRec) : LeadRec :=
  { r with has_email := f r.has_email }

/-- A well-formed raw registry result. -/
def c3RawResult : NppesResult :=
  { number := some "1"
    basic := { first_name := some "amy", last_name := some "lee" }
    addresses := [{ address_purpose := some "LOCATION", address_1 := some "1 Main St" }] }

/-- A registry holding more than one full page of results: every request is
answered with a full page of 50. -/
def c3Registry : NppesQuery → Except Unit (List NppesResult) :=
  fun _ => .ok (List.replicate 50 c3RawResult)

/-- A Scout lead with no registry email but a direct-messaging address. -/
def c7Scout : ScoutLead :=
  { npi := some "1", name := some "Dr. Amy Lee", clinic_name := some "Lee Clinic",
    direct_messaging_address := some "amy@direct.example" }

/-- An enrichment result carrying a different email. -/
def c7Apollo : ApolloData := { apollo_email := some "amy@apollo.example" }

/-- A store with one record whose email is already set. -/
def c7WitnessDb : List LeadRec :=
  [testLead "1" "Novi" "Family Medicine" (some "keep@example.com") true false false]

/-- A match engine answering with a different email. -/
def c7Oracle : List ApolloInputRec → List ApolloData :=
  fun _ => [{ apollo_email := some "new@example.com" }]

/-- A `dict.get(k, d)` result is either the default or one of the stored
values. -/
theorem lookupD_mem {α : Type} (l : List (String × α)) (k : String) (d : α) :
    lookupD l k d = d ∨ lookupD l k d ∈ l.map (fun p => p.2) := by
  unfold lookupD
  cases h : l.find? (fun p => p.1 == k) with
  | none => exact Or.inl rfl
  | some p => exact Or.inr (List.mem_map_of_mem _ (List.mem_of_find?_eq_some h))

/-- The state lookup always lands in the finite table. -/
theorem distOf_mem_allDists (state : String) : distOf state ∈ allDists := by
  unfold distOf allDists
  rcases lookupD_mem STATE_EMR_DISTRIBUTION (strUpper state) DEFAULT_DIST with h | h
  · rw [h]; exact List.mem_cons_self _ _
  · exact List.mem_cons_of_mem _ h

/-- The size lookup always lands in the finite table. -/
theorem modsOf_mem_allModRows (clinic_size : String) : modsOf clinic_size ∈ allModRows := by
  unfold modsOf allModRows
  rcases lookupD_mem SIZE_EMR_MODIFIERS clinic_size SMALL_MODS with h | h
  · rw [h]; exact List.mem_cons_self _ _
  · exact List.mem_cons_of_mem _ h

/-- Over every distribution × modifier-row pair of the tables, the
renormalization divisor is positive. -/
theorem totalOf_pos_fin : ∀ d ∈ allDists, ∀ m ∈ allModRows, 0 < totalOf d m := by
  with_unfolding_all decide

/-- Over every distribution × modifier-row pair of the tables, the sorted
renormalized probability list has five entries and the rounded confidence
lies between 0.50 and 0.85. -/
theorem confidence_fin : ∀ d ∈ allDists, ∀ m ∈ allModRows,
    (sortedValsOf d m).length = 5 ∧
    50/100 ≤ pyRound2 (rawConfOf d m) ∧ pyRound2 (rawConfOf d m) ≤ 85/100 := by
  with_unfolding_all decide

/-! ## Claim C4 -/

/-- C4, counterexample: size estimation for "Springfield Medical Group" does
not return "Medium" — the Large keyword set is scanned first and its
"medical group" keyword already matches. -/
theorem claim_C4_counterexample :
    (estimate_clinic_size "Springfield Medical Group").clinic_size ≠ "Medium" ∧
    (estimate_clinic_size "Springfield Medical Group").clinic_size = "Large" := by
  with_unfolding_all decide

/-- C4, amended: size estimation for the organization name "Springfield
Medical Group" returns the label "Large" (matching the "medical group"
keyword of the Large set, the first matching set among the four ordered
keyword sets) at confidence 0.75, with a reasoning string citing the
matched keyword. -/
theorem claim_C4 :
    estimate_clinic_size "Springfield Medical Group" =
      { clinic_size := "Large"
        confidence := 75/100
        reasoning := "Organization name contains " ++ sglQuote ++ "medical group" ++
          sglQuote ++ " indicating Large practice" } := by
  with_unfolding_all decide

/-! ## Claim C10 -/

/-- C10: for every state string and clinic-size string (including the
fallbacks to the DEFAULT distribution and the Small modifier row), the
renormalization divisor of `estimate_emr_system` is strictly positive, so
the division step never divides by zero. -/
theorem claim_C10 : ∀ (state clinic_size : String),
    0 < totalOf (distOf state) (modsOf clinic_size) :=
  fun state clinic_size =>
    totalOf_pos_fin (distOf state) (distOf_mem_allDists state)
      (modsOf clinic_size) (modsOf_mem_allModRows clinic_size)

/-! ## Claim C5 -/

/-- C5, counterexample: at organization "Riverbend Cardiology" (no known
system), state "WY" (fallback distribution) and size "Small", the top two
renormalized probabilities are 270/913 and 240/913, so the claimed
confidence min(0.85, 0.50 + margin) is 973/1826 ≈ 0.5329 — but the function
returns the rounded value 0.53, which differs. -/
theorem claim_C5_counterexample :
    knownMatch "Riverbend Cardiology" = none ∧
    sortedValsOf (distOf "WY") (modsOf "Small") =
      [270/913, 240/913, 175/913, 168/913, 60/913] ∧
    min ((85:ℚ)/100) (50/100 + ((270:ℚ)/913 - 240/913)) = 973/1826 ∧
    (estimate_emr_system "Riverbend Cardiology" "WY" "Small").confidence = 53/100 ∧
    ((53:ℚ)/100) ≠ 973/1826 := by
  set_option maxRecDepth 4000 in with_unfolding_all decide

/-- C5, amended: for every organization name matching no known-system table
entry, `estimate_emr_system` returns the confidence
min(0.85, 0.50 + (top − second)) over the renormalized size-weighted state
distribution *rounded to two decimal places*, and the returned confidence
always lies in the interval [0.50, 0.85]. -/
theorem claim_C5 (organization_name state clinic_size : String)
    (h : knownMatch organization_name = none) :
    (estimate_emr_system organization_name state clinic_size).emr_system =
      (argmaxOf (normOf (distOf state) (modsOf clinic_size))).1 ∧
    ∃ a b rest, sortedValsOf (distOf state) (modsOf clinic_size) = a :: b :: rest ∧
      (estimate_emr_system organization_name state clinic_size).confidence =
        pyRound2 (min (85/100) (50/100 + (a - b))) ∧
      50/100 ≤ (estimate_emr_system organization_name state clinic_size).confidence ∧
      (estimate_emr_system organization_name state clinic_size).confidence ≤ 85/100 := by
  obtain ⟨hlen, hlo, hhi⟩ :=
    confidence_fin (distOf state) (distOf_mem_allDists state)
      (modsOf clinic_size) (modsOf_mem_allModRows clinic_size)
  obtain ⟨a, b, rest, hshape⟩ :
      ∃ a b rest, sortedValsOf (distOf state) (modsOf clinic_size) = a :: b :: rest := by
    cases hs : sortedValsOf (distOf state) (modsOf clinic_size) with
    | nil => rw [hs] at hlen; simp at hlen
    | cons a t =>
      cases t with
      | nil => rw [hs] at hlen; simp at hlen
      | cons b r => exact ⟨a, b, r, rfl⟩
  have hconf : (estimate_emr_system organization_name state clinic_size).confidence =
      pyRound2 (rawConfOf (distOf state) (modsOf clinic_size)) := by
    unfold estimate_emr_system
    rw [h]
  have hraw : rawConfOf (distOf state) (modsOf clinic_size) =
      min (85/100) (50/100 + (a - b)) := by
    unfold rawConfOf
    rw [hshape]
  refine ⟨?_, a, b, rest, hshape, by rw [hconf, hraw],
    by rw [hconf]; exact hlo, by rw [hconf]; exact hhi⟩
  unfold estimate_emr_system
  rw [h]

/-- C5, witness: the amended theorem applied at the concrete input of the
counterexample. -/
theorem claim_C5_witness :
    knownMatch "Riverbend Cardiology" = none ∧
    ((estimate_emr_system "Riverbend Cardiology" "WY" "Small").emr_system =
      (argmaxOf (normOf (distOf "WY") (modsOf "Small"))).1 ∧
    ∃ a b rest, sortedValsOf (distOf "WY") (modsOf "Small") = a :: b :: rest ∧
      (estimate_emr_system "Riverbend Cardiology" "WY" "Small").confidence =
        pyRound2 (min (85/100) (50/100 + (a - b))) ∧
      50/100 ≤ (estimate_emr_system "Riverbend Cardiology" "WY" "Small").confidence ∧
      (estimate_emr_system "Riverbend Cardiology" "WY" "Small").confidence ≤ 85/100) :=
  ⟨by decide, claim_C5 "Riverbend Cardiology" "WY" "Small" (by decide)⟩

/-! ## Claim C6 -/

/-- C6: when the hierarchical search yields candidates whose top-scored one
scores strictly below 0.6, `_search_person_by_name` performs no
detail-resolving `enrich_person_by_id` lookup (the counter stays 0) and
returns no match. -/
theorem claim_C6 (searchOracle : ApolloSearchPayload → Except Unit (List ApolloPerson))
    (idOracle : String → Except Unit (Option ApolloDetail))
    (first_name last_name : String) (city state : Option String)
    (best : ApolloPerson × ℚ) (rest : List (ApolloPerson × ℚ))
    (hh : (hierarchical_search searchOracle first_name last_name city state).1 = best :: rest)
    (hscore : best.2 < 6/10) :
    search_person_by_name searchOracle idOracle first_name last_name city state = (none, 0) := by
  unfold search_person_by_name
  rw [hh]
  exact if_pos hscore

/-- C6, witness: the gate theorem applied to a concrete candidate scoring 0. -/
theorem claim_C6_witness :
    search_person_by_name c6SearchOracle c6IdOracle "John" "Smith" none none = (none, 0) :=
  claim_C6 c6SearchOracle c6IdOracle "John" "Smith" none none (c6Person, 0) []
    (by with_unfolding_all decide) (by with_unfolding_all decide)

/-! ## Claim C9 -/

/-- When every search strategy errors, the strategy loop reports failure. -/
theorem tryStrategies_error
    (searchOracle : ApolloSearchPayload → Except Unit (List ApolloPerson))
    (hs : ∀ q, searchOracle q = .error ()) :
    ∀ l, tryStrategies searchOracle l = ([], "failed") := by
  intro l
  induction l with
  | nil => rfl
  | cons p rest ih =>
    cases p with
    | mk name payload =>
      unfold tryStrategies
      rw [hs payload]
      exact ih

/-- A transport failure of every relevant endpoint yields no match for a
person, never an exception. -/
theorem enrich_one_error
    (matchOracle : ApolloMatchPayload → Except Unit (Option ApolloDetail))
    (searchOracle : ApolloSearchPayload → Except Unit (List ApolloPerson))
    (idOracle : String → Except Unit (Option ApolloDetail))
    (hm : ∀ q, matchOracle q = .error ())
    (hs : ∀ q, searchOracle q = .error ())
    (person : PersonInput) :
    enrich_one matchOracle searchOracle idOracle person = none := by
  unfold enrich_one enrich_person_by_name search_person_by_name hierarchical_search
  rw [tryStrategies_error searchOracle hs]
  split
  · rfl
  · cases ho : truthy (pyOr person.organization_name person.clinic_name) with
    | false => simp [ho]
    | true => simp [ho, hm]

/-- C9: batch enrichment returns exactly one entry per input person, the
i-th output being the result of the i-th person's independent lookup (input
order preserved); when the transport fails, every affected position resolves
to no-match instead of an exception escaping the batch. -/
theorem claim_C9
    (matchOracle : ApolloMatchPayload → Except Unit (Option ApolloDetail))
    (searchOracle : ApolloSearchPayload → Except Unit (List ApolloPerson))
    (idOracle : String → Except Unit (Option ApolloDetail))
    (people_data : List PersonInput) :
    (enrich_multiple_people matchOracle searchOracle idOracle people_data).length =
      people_data.length ∧
    (∀ i (h : i < people_data.length),
      (enrich_multiple_people matchOracle searchOracle idOracle people_data).get? i =
        some (enrich_one matchOracle searchOracle idOracle (people_data.get ⟨i, h⟩))) ∧
    ((∀ q, matchOracle q = .error ()) → (∀ q, searchOracle q = .error ()) →
      ∀ i, i < people_data.length →
        (enrich_multiple_people matchOracle searchOracle idOracle people_data).get? i =
          some none) := by
  refine ⟨List.length_map _ _, ?_, ?_⟩
  · intro i h
    unfold enrich_multiple_people
    rw [List.get?_map, List.get?_eq_get h]
    rfl
  · intro hm hs i h
    unfold enrich_multiple_people
    rw [List.get?_map, List.get?_eq_get h, Option.map_some',
      enrich_one_error matchOracle searchOracle idOracle hm hs]

/-- C9, witness: the batch theorem applied to a concrete two-person batch
under a total transport failure. -/
theorem claim_C9_witness :
    (enrich_multiple_people c9ErrMatch c9ErrSearch c9ErrId c9Inputs).length =
      c9Inputs.length ∧
    (enrich_multiple_people c9ErrMatch c9ErrSearch c9ErrId c9Inputs).get? 0 = some none ∧
    (enrich_multiple_people c9ErrMatch c9ErrSearch c9ErrId c9Inputs).get? 1 = some none :=
  ⟨(claim_C9 c9ErrMatch c9ErrSearch c9ErrId c9Inputs).1,
   (claim_C9 c9ErrMatch c9ErrSearch c9ErrId c9Inputs).2.2
     (fun _ => rfl) (fun _ => rfl) 0 (by decide),
   (claim_C9 c9ErrMatch c9ErrSearch c9ErrId c9Inputs).2.2
     (fun _ => rfl) (fun _ => rfl) 1 (by decide)⟩

/-! ## Claim C8 -/

/-- A missing value is falsy. -/
theorem truthy_none : truthy none = false := rfl

/-- Each newly inserted lead of `load_leads_from_nppes` keeps
`has_email = (email set and non-empty)`, so one loop step preserves the
invariant. -/
theorem loadStep_inv (location specialty : String) (now : Nat) (acc : LoadResult)
    (p : NppesProvider) (h : hasEmailInv acc.db) :
    hasEmailInv (loadStep location specialty now acc p).db := by
  simp only [loadStep]
  split
  · exact h
  · intro r hr
    cases hd : truthy p.direct_messaging_address <;>
      · simp only [truthy_none, hd, List.mem_append, List.mem_singleton,
          Bool.false_eq_true, if_false, if_true, reduceIte] at hr
        rcases hr with hr | rfl
        · exact h r hr
        · simp [truthy_none, hd]

/-- The provider loop of `load_leads_from_nppes` preserves the has-email
invariant. -/
theorem load_inv (location specialty : String) (now : Nat) :
    ∀ (providers : List NppesProvider) (acc : LoadResult), hasEmailInv acc.db →
      hasEmailInv ((providers.foldl (loadStep location specialty now) acc).db) := by
  intro providers
  induction providers with
  | nil => intro acc h; exact h
  | cons p ps ih =>
    intro acc h
    exact ih _ (loadStep_inv location specialty now acc p h)

/-- One `$set` update of `recruit_leads` writes `email` and `has_email`
together or not at all, so it preserves the consistency of the record it
touches. -/
theorem recruitUpdate_consistent (lead : LeadRec) (ad : ApolloData) (now : Nat)
    (t : LeadRec) (h : t.has_email = truthy t.email) :
    (recruitUpdate lead ad now t).has_email =
      truthy (recruitUpdate lead ad now t).email := by
  unfold recruitUpdate
  cases ha : truthy ad.apollo_email with
  | false => simpa using h
  | true =>
    cases hl : truthy lead.email with
    | false => simp [ha]
    | true => simpa using h

/-- `applyUpdate` preserves any pointwise record property preserved by the
update function. -/
theorem applyUpdate_inv {P : LeadRec → Prop} (f : LeadRec → LeadRec)
    (hf : ∀ t, P t → P (f t)) :
    ∀ (db : List LeadRec) (npi : Option String), (∀ r ∈ db, P r) →
      ∀ r ∈ applyUpdate db npi f, P r := by
  intro db
  induction db with
  | nil => intro npi h r hr; simp [applyUpdate] at hr
  | cons x xs ih =>
    intro npi h r hr
    unfold applyUpdate at hr
    split at hr
    · rcases List.mem_cons.mp hr with rfl | hr
      · exact hf x (h x (List.mem_cons_self x xs))
      · exact h r (List.mem_cons_of_mem x hr)
    · rcases List.mem_cons.mp hr with rfl | hr
      · exact h r (List.mem_cons_self r xs)
      · exact ih npi (fun s hs => h s (List.mem_cons_of_mem x hs)) r hr

/-- The whole step-4 update loop of `recruit_leads` preserves the has-email
invariant. -/
theorem recruitUpdates_inv :
    ∀ (pairs : List (LeadRec × ApolloData)) (db : List LeadRec) (now : Nat),
      hasEmailInv db → hasEmailInv (recruitUpdates db pairs now) := by
  intro pairs
  induction pairs with
  | nil => intro db now h; exact h
  | cons p ps ih =>
    intro db now h
    show hasEmailInv (recruitUpdates (applyUpdate db p.1.npi (recruitUpdate p.1 p.2 now)) ps now)
    exact ih _ now
      (applyUpdate_inv _ (fun t => recruitUpdate_consistent p.1 p.2 now t) db p.1.npi h)

/-- C8: starting from any store satisfying the has-email invariant, both a
bulk-load and a recruit operation leave every stored record satisfying
`has_email == (email is not None and email != "")`. -/
theorem claim_C8 (db : List LeadRec) (providers : List NppesProvider)
    (location specialty : String)
    (apolloOracle : List ApolloInputRec → List ApolloData) (now : Nat)
    (h : hasEmailInv db) :
    hasEmailInv (load_leads_from_nppes db providers location specialty now).db ∧
    hasEmailInv (recruit_leads db location specialty apolloOracle now).db := by
  constructor
  · exact load_inv location specialty now providers
      { db := db, leads_loaded := 0, with_email := 0, without_email := 0 } h
  · simp only [recruit_leads]
    split
    · exact h
    · exact recruitUpdates_inv _ db now h

/-- C8, witness: the invariant theorem applied to a concrete store, a
concrete provider batch and a concrete Apollo response. -/
theorem claim_C8_witness :
    hasEmailInv (load_leads_from_nppes c8Db [c8Provider] "Novi" "Family Medicine" 0).db ∧
    hasEmailInv (recruit_leads c8Db "Novi" "Family Medicine"
      (fun _ => [{ apollo_email := some "amy@apollo.example" }]) 0).db :=
  claim_C8 c8Db [c8Provider] "Novi" "Family Medicine"
    (fun _ => [{ apollo_email := some "amy@apollo.example" }]) 0
    (by unfold hasEmailInv; decide)

/-! ## Claim C1 -/

/-- C1: `recruit_leads` consults no budget.  With the cap configured to 1
and the global `apollo_searched` count already at the cap (so
`remaining = max(0, 1 − 1) = 0`), a recruit call still sends 1 record to the
match engine and raises the stored `apollo_searched` count to 2, exceeding
the cap.  `APOLLO_TOTAL_CAP` is declared in the configuration but read
nowhere. -/
theorem claim_C1 :
    apolloSearchedCount c1Db = 1 ∧
    Nat.max 0 (1 - apolloSearchedCount c1Db) = 0 ∧
    (recruit_leads c1Db "Novi" "Family Medicine" (fun _ => []) 0).apolloInput.length = 1 ∧
    apolloSearchedCount (recruit_leads c1Db "Novi" "Family Medicine" (fun _ => []) 0).db = 2 := by
  decide

/-! ## Claim C2 -/

/-- C2, counterexample: an unvisited record with `has_email = true` is
passed over in favor of ten earlier unvisited email-less records — the
selection is by store order only, not email-first. -/
theorem claim_C2_counterexample :
    c2EmailLead ∈ c2Db ∧ c2EmailLead.has_email = true ∧
    unvisitedPred "Novi" "Family Medicine" c2EmailLead = true ∧
    c2EmailLead ∉ recruitSelectBatch c2Db "Novi" "Family Medicine" ∧
    ∃ r ∈ recruitSelectBatch c2Db "Novi" "Family Medicine", r.has_email = false := by
  decide

/-- C2, amended: the selected batch is the first up-to-10 unvisited records
for the city and specialty in store order; `has_email` plays no role in the
selection (the batch commutes with any rewriting of the `has_email` flags),
so an unvisited record with an email enjoys no priority. -/
theorem claim_C2 (db : List LeadRec) (location specialty : String) (f : Bool → Bool) :
    List.Sublist (recruitSelectBatch db location specialty) db ∧
    (recruitSelectBatch db location specialty).length ≤ 10 ∧
    (∀ r ∈ recruitSelectBatch db location specialty,
      r.city = location ∧ r.specialty = specialty ∧ r.visited = false) ∧
    recruitSelectBatch (db.map (hasEmailMap f)) location specialty =
      (recruitSelectBatch db location specialty).map (hasEmailMap f) := by
  refine ⟨?_, ?_, ?_, ?_⟩
  · exact (List.take_sublist _ _).trans (List.filter_sublist _)
  · exact List.length_take_le _ _
  · intro r hr
    have hp := List.of_mem_filter (List.mem_of_mem_take hr)
    unfold unvisitedPred at hp
    simp only [Bool.and_eq_true, beq_iff_eq] at hp
    exact ⟨hp.1.1, hp.1.2, hp.2⟩
  · unfold recruitSelectBatch
    rw [List.filter_map]
    have hcomp : (unvisitedPred location specialty) ∘ (hasEmailMap f) =
        unvisitedPred location specialty := funext fun r => rfl
    rw [hcomp, ← List.map_take]

/-! ## Claim C3 -/

/-- C3, amended: every bulk-load issues exactly one registry request, whose
page size is min(2 × requested, 50); there is no offset cursor (the request
type has no such field) and at most the requested number of providers is
returned from that single page. -/
theorem claim_C3 (registry : NppesQuery → Except Unit (List NppesResult))
    (city : String) (state : Option String) (specialty : String) (limit : Nat) :
    (search_providers registry city state specialty limit).1.length = 1 ∧
    (∀ q ∈ (search_providers registry city state specialty limit).1,
      q.limit = min (limit * 2) 50) ∧
    (search_providers registry city state specialty limit).2.length ≤ limit := by
  simp only [search_providers]
  split
  · exact ⟨rfl, fun q hq => by rw [List.mem_singleton] at hq; subst hq; rfl,
      Nat.zero_le _⟩
  · exact ⟨rfl, fun q hq => by rw [List.mem_singleton] at hq; subst hq; rfl,
      le_trans (List.length_filterMap_le _ _) (List.length_take_le _ _)⟩

/-- C3, counterexample: asking for 100 providers from a registry with more
than a full page available, the client sends exactly one request (page size
50), receives a full page and returns 50 providers — it stops although the
requested total is not reached and the page was not short, and issues no
successive offset request. -/
theorem claim_C3_counterexample :
    (search_providers c3Registry "Novi" none "Family Medicine" 100).1.length = 1 ∧
    ((search_providers c3Registry "Novi" none "Family Medicine" 100).1.map
      (fun q => q.limit)) = [50] ∧
    (search_providers c3Registry "Novi" none "Family Medicine" 100).2.length = 50 ∧
    (search_providers c3Registry "Novi" none "Family Medicine" 100).2.length < 100 := by
  decide

/-! ## Claim C7 -/

/-- C7, counterexample: in `_prepare_lead_for_db`, a record whose email was
filled from the (non-empty) direct-messaging address is overwritten by a
different enrichment email — the claimed priority "registry email, then
direct-messaging address, then enrichment email" does not hold there. -/
theorem claim_C7_counterexample :
    truthy c7Scout.direct_messaging_address = true ∧
    c7Scout.email = none ∧
    (prepare_lead_for_db c7Scout (some c7Apollo) "Primary Care" 0).email =
      some "amy@apollo.example" ∧
    some "amy@apollo.example" ≠ c7Scout.direct_messaging_address := by
  decide

/-- The update of step 4 never changes the stored NPI. -/
theorem recruitUpdate_npi (lead : LeadRec) (ad : ApolloData) (now : Nat) (t : LeadRec) :
    (recruitUpdate lead ad now t).npi = t.npi := by
  unfold recruitUpdate
  split
  · split <;> rfl
  · rfl

/-- When the batch lead already has an email, the step-4 update leaves the
`email` field of the touched record unchanged. -/
theorem recruitUpdate_email_frame (lead : LeadRec) (ad : ApolloData) (now : Nat)
    (t : LeadRec) (h : truthy lead.email = true) :
    (recruitUpdate lead ad now t).email = t.email := by
  unfold recruitUpdate
  split
  · simp [h]
  · rfl

/-- `applyUpdate` leaves a position unchanged or rewrites the record there,
and in the latter case the original record at that position carries the
targeted NPI. -/
theorem applyUpdate_get?_cases (f : LeadRec → LeadRec) :
    ∀ (db : List LeadRec) (npi : Option String) (i : Nat),
      (applyUpdate db npi f).get? i = db.get? i ∨
      ∃ r, db.get? i = some r ∧ (r.npi == npi) = true ∧
        (applyUpdate db npi f).get? i = some (f r) := by
  intro db
  induction db with
  | nil => intro npi i; left; rfl
  | cons x xs ih =>
    intro npi i
    unfold applyUpdate
    by_cases hx : (x.npi == npi) = true
    · rw [if_pos hx]
      cases i with
      | zero => right; exact ⟨x, rfl, hx, rfl⟩
      | succ i => left; rfl
    · rw [if_neg hx]
      cases i with
      | zero => left; rfl
      | succ i =>
        rcases ih npi i with h | ⟨r, h1, h2, h3⟩
        · left; exact h
        · right; exact ⟨r, h1, h2, h3⟩

/-- `applyUpdate` with an NPI-preserving update function preserves the NPI
layout of the store. -/
theorem applyUpdate_npiMap (f : LeadRec → LeadRec) (hf : ∀ t, (f t).npi = t.npi) :
    ∀ (db : List LeadRec) (npi : Option String),
      (applyUpdate db npi f).map (fun r => r.npi) = db.map (fun r => r.npi) := by
  intro db
  induction db with
  | nil => intro npi; rfl
  | cons x xs ih =>
    intro npi
    unfold applyUpdate
    by_cases hx : (x.npi == npi) = true
    · rw [if_pos hx]
      simp only [List.map_cons]
      rw [hf x]
    · rw [if_neg hx]
      simp only [List.map_cons]
      rw [ih npi]

/-- Positions of a duplicate-free list are determined by their value. -/
theorem nodup_get?_inj {α : Type} :
    ∀ {l : List α}, l.Nodup → ∀ {i j : Nat} {a : α},
      l.get? i = some a → l.get? j = some a → i = j := by
  intro l
  induction l with
  | nil => intro _ i j a hi; simp at hi
  | cons x xs ih =>
    intro h i j a hi hj
    rcases List.nodup_cons.mp h with ⟨hx, hxs⟩
    cases i with
    | zero =>
      cases j with
      | zero => rfl
      | succ j =>
        rw [List.get?_cons_zero] at hi
        injection hi with hxa
        rw [List.get?_cons_succ] at hj
        exact absurd (hxa ▸ List.get?_mem hj) hx
    | succ i =>
      cases j with
      | zero =>
        rw [List.get?_cons_zero] at hj
        injection hj with hxa
        rw [List.get?_cons_succ] at hi
        exact absurd (hxa ▸ List.get?_mem hi) hx
      | succ j =>
        rw [List.get?_cons_succ] at hi hj
        exact congrArg Nat.succ (ih hxs hi hj)

/-- The second component of an enumerated entry is a list member. -/
theorem mem_enumFrom_snd {α : Type} :
    ∀ (l : List α) (n : Nat) (p : Nat × α), p ∈ l.enumFrom n → p.2 ∈ l := by
  intro l
  induction l with
  | nil => intro n p hp; simp [List.enumFrom] at hp
  | cons x xs ih =>
    intro n p hp
    rcases List.mem_cons.mp hp with rfl | hp
    · exact List.mem_cons_self _ _
    · exact List.mem_cons_of_mem _ (ih (n + 1) p hp)

/-- Every pair of step 4 is headed by a batch lead. -/
theorem recruitPairs_fst_mem (batch : List LeadRec) (resp : List ApolloData) :
    ∀ p ∈ recruitPairs batch resp, p.1 ∈ batch := by
  intro p hp
  unfold recruitPairs at hp
  rcases List.mem_map.mp hp with ⟨q, hq, rfl⟩
  exact mem_enumFrom_snd batch 0 q hq

/-- The step-4 update loop never changes a position whose original record
already had a non-empty email, provided (1) the current store agrees with
the original on NPIs and emails of email-carrying records, and (2) every
pair whose NPI hits an email-carrying original position stems from a batch
lead that itself had an email. -/
theorem recruitUpdates_email_frame :
    ∀ (pairs : List (LeadRec × ApolloData)) (db₀ db : List LeadRec) (now : Nat),
      db.map (fun r => r.npi) = db₀.map (fun r => r.npi) →
      (∀ i r₀ r, db₀.get? i = some r₀ → db.get? i = some r →
        truthy r₀.email = true → r.email = r₀.email) →
      (∀ p ∈ pairs, ∀ i r₀, db₀.get? i = some r₀ → r₀.npi = p.1.npi →
        truthy r₀.email = true → truthy p.1.email = true) →
      ∀ i r₀ r, db₀.get? i = some r₀ →
        (recruitUpdates db pairs now).get? i = some r →
        truthy r₀.email = true → r.email = r₀.email := by
  intro pairs
  induction pairs with
  | nil => intro db₀ db now hmap hdb hp i r₀ r h₀ hr htr; exact hdb i r₀ r h₀ hr htr
  | cons p ps ih =>
    intro db₀ db now hmap hdb hp i r₀ r h₀ hr htr
    have step : recruitUpdates db (p :: ps) now =
        recruitUpdates (applyUpdate db p.1.npi (recruitUpdate p.1 p.2 now)) ps now := rfl
    rw [step] at hr
    refine ih db₀ (applyUpdate db p.1.npi (recruitUpdate p.1 p.2 now)) now ?_ ?_ ?_
      i r₀ r h₀ hr htr
    · rw [applyUpdate_npiMap _ (fun t => recruitUpdate_npi p.1 p.2 now t) db p.1.npi, hmap]
    · intro j s₀ s h₀j hsj htrj
      rcases applyUpdate_get?_cases (recruitUpdate p.1 p.2 now) db p.1.npi j with
        hc | ⟨x, hx, hxn, hfx⟩
      · exact hdb j s₀ s h₀j (by rw [← hc]; exact hsj) htrj
      · rw [hfx] at hsj
        injection hsj with hs
        have hnp : x.npi = s₀.npi := by
          have h1 : (db₀.map (fun r => r.npi)).get? j = some x.npi := by
            rw [← hmap, List.get?_map, hx]; rfl
          have h2 : (db₀.map (fun r => r.npi)).get? j = some s₀.npi := by
            rw [List.get?_map, h₀j]; rfl
          rw [h1] at h2
          exact Option.some.inj h2
        have hsn : s₀.npi = p.1.npi := by
          rw [← hnp]
          exact eq_of_beq hxn
        have hlead : truthy p.1.email = true :=
          hp p (List.mem_cons_self p ps) j s₀ h₀j hsn htrj
        have hxe : x.email = s₀.email := hdb j s₀ x h₀j hx htrj
        rw [← hs, recruitUpdate_email_frame p.1 p.2 now x hlead, hxe]
    · intro q hq; exact hp q (List.mem_cons_of_mem p hq)

/-- C7, amended: (a) in `recruit_leads`, over a store with unique NPIs, a
stored record whose email is non-empty keeps exactly that email through the
merge — the enrichment email fills only empty emails; (b) in the (uncalled)
`_prepare_lead_for_db`, the effective priority is registry email, then
enrichment email, then direct-messaging address: the enrichment email
overwrites a direct-messaging-sourced email whenever the registry email is
absent. -/
theorem claim_C7 :
    (∀ (db : List LeadRec) (location specialty : String)
       (apolloOracle : List ApolloInputRec → List ApolloData) (now : Nat),
      (db.map (fun r => r.npi)).Nodup →
      ∀ i r₀ r₁, db.get? i = some r₀ →
        (recruit_leads db location specialty apolloOracle now).db.get? i = some r₁ →
        truthy r₀.email = true → r₁.email = r₀.email) ∧
    (∀ (scout_lead : ScoutLead) (ad : ApolloData) (specialty : String) (now : Nat),
      (prepare_lead_for_db scout_lead (some ad) specialty now).email =
        (if truthy scout_lead.email = true then scout_lead.email
         else if truthy ad.apollo_email = true then ad.apollo_email
         else if truthy scout_lead.direct_messaging_address = true then
           scout_lead.direct_messaging_address
         else none)) := by
  constructor
  · intro db location specialty apolloOracle now hnodup i r₀ r₁ h₀ h₁ htr
    simp only [recruit_leads] at h₁
    split at h₁
    · rw [h₀] at h₁
      injection h₁ with h₁
      rw [← h₁]
    · rename_i u us heq
      refine recruitUpdates_email_frame _ db db now rfl ?_ ?_ i r₀ r₁ h₀ h₁ htr
      · intro j s₀ s h₀j hsj _
        rw [h₀j] at hsj
        injection hsj with hs
        rw [← hs]
      · intro p hp j s₀ h₀j hsn htrj
        have hpb : p.1 ∈ (u :: us) := recruitPairs_fst_mem _ _ p hp
        have hx : p.1 ∈ recruitSelectBatch db location specialty := by
          rw [heq]; exact hpb
        unfold recruitSelectBatch at hx
        have hpdb : p.1 ∈ db := List.mem_of_mem_filter (List.mem_of_mem_take hx)
        obtain ⟨k, hk⟩ := List.get?_of_mem hpdb
        have hmj : (db.map (fun r => r.npi)).get? j = some p.1.npi := by
          rw [List.get?_map, h₀j]
          simp [hsn]
        have hmk : (db.map (fun r => r.npi)).get? k = some p.1.npi := by
          rw [List.get?_map, hk]; rfl
        have hjk : j = k := nodup_get?_inj hnodup hmj hmk
        rw [hjk] at h₀j
        rw [h₀j] at hk
        injection hk with he
        rw [← he]
        exact htrj
  · intro scout_lead ad specialty now
    simp only [prepare_lead_for_db]
    cases h1 : truthy scout_lead.email <;> cases h2 : truthy ad.apollo_email <;>
      cases h3 : truthy scout_lead.direct_messaging_address <;>
        simp [h1, h2, h3]

/-- C7, witness: both parts of the amended claim at concrete inputs — the
recruit merge keeps the pre-existing email, and the `_prepare_lead_for_db`
priority equation instantiated at the counterexample's input. -/
theorem claim_C7_witness :
    (((recruit_leads c7WitnessDb "Novi" "Family Medicine" c7Oracle 0).db.get? 0).map
      (fun r => r.email)) = some (some "keep@example.com") ∧
    (prepare_lead_for_db c7Scout (some c7Apollo) "Primary Care" 0).email =
      (if truthy c7Scout.email = true then c7Scout.email
       else if truthy c7Apollo.apollo_email = true then c7Apollo.apollo_email
       else if truthy c7Scout.direct_messaging_address = true then
         c7Scout.direct_messaging_address
       else none) := by
  constructor
  · cases hE : (recruit_leads c7WitnessDb "Novi" "Family Medicine" c7Oracle 0).db.get? 0 with
    | none => exact absurd hE (by decide)
    | some r₁ =>
      have h := claim_C7.1 c7WitnessDb "Novi" "Family Medicine" c7Oracle 0 (by decide) 0
        (testLead "1" "Novi" "Family Medicine" (some "keep@example.com") true false false) r₁
        (by decide) hE (by decide)
      rw [Option.map_some', h]
      decide
  · exact claim_C7.2 c7Scout c7Apollo "Primary Care" 0
